import Mathlib

/-!
Verification of the churn-analysis core of the E-Commerce-Test-Dash
repository: a shallow embedding of the label definition, feature
engineering, dataset assembly, rebalancing, training, evaluation,
artifact persistence and prediction code (`src/utils/KPIs.py`,
`src/churn_analysis.py`, `src/paginas/analise_churn.py`), together with
theorems settling the specification's claims about them.

Modelling conventions:
* the flat order table is a `List OrderRow`, one entry per order-item row;
* timestamps are integer day numbers, so `pd.to_datetime` comparisons and
  `.dt.days` become integer comparisons and subtraction;
* float NaN cells are `Option` `none`; pandas `fillna` is `Option.getD`;
* money/score columns are exact rationals (no claim here depends on
  float rounding).
-/

/- Batteries seals rational arithmetic against definitional unfolding;
unsealing it lets `decide` evaluate the embedded functions on the concrete
witness and counterexample inputs below. -/
attribute [local semireducible] Rat.add Rat.mul Rat.inv Rat.sub

/-- One row of the flat order-level table (one row per order-item), with
the columns the churn core reads.  `review_score` is `none` when the
review is absent (a NaN cell). -/
structure OrderRow where
  order_id : String
  customer_unique_id : String
  order_purchase_timestamp : Int
  payment_value : ℚ
  payment_installments : ℚ
  order_status : String
  review_score : Option ℚ
  deriving DecidableEq, Repr

/-- `df[df['order_purchase_timestamp'] <= cutoff_date]['customer_unique_id'].unique()`
(src/utils/KPIs.py line 209): the customers with at least one order
at/before the cutoff. -/
def activeCustomers (df : List OrderRow) (cutoff : Int) : List String :=
  ((df.filter (fun r => r.order_purchase_timestamp ≤ cutoff)).map
    (fun r => r.customer_unique_id)).dedup

/-- `df[df['order_purchase_timestamp'] > cutoff_date]['customer_unique_id'].unique()`
(src/utils/KPIs.py line 212): the customers with at least one order
strictly after the cutoff. -/
def customersAfterCutoff (df : List OrderRow) (cutoff : Int) : List String :=
  ((df.filter (fun r => cutoff < r.order_purchase_timestamp)).map
    (fun r => r.customer_unique_id)).dedup

/-- `define_churn` (src/utils/KPIs.py lines 203-220): one labelled entry
per active customer, label 0 when the customer also bought strictly after
the cutoff and 1 otherwise. -/
def define_churn (df : List OrderRow) (cutoff : Int) : List (String × Nat) :=
  (activeCustomers df cutoff).map
    (fun c => (c, if c ∈ customersAfterCutoff df cutoff then 0 else 1))

/-- C1: a customer appears in the Label Definer's output iff they have at
least one order with purchase timestamp at/before the cutoff, and they
carry label 1 iff they have zero orders strictly after the cutoff (so a
customer whose only order is exactly at the cutoff is labelled, with
label 1 when they never purchase afterwards). -/
theorem C1_label_definer_correct (df : List OrderRow) (cutoff : Int) (c : String) :
    (c ∈ (define_churn df cutoff).map Prod.fst ↔
      ∃ r ∈ df, r.customer_unique_id = c ∧ r.order_purchase_timestamp ≤ cutoff) ∧
    ((c, 1) ∈ define_churn df cutoff ↔
      (∃ r ∈ df, r.customer_unique_id = c ∧ r.order_purchase_timestamp ≤ cutoff) ∧
      ¬ ∃ r ∈ df, r.customer_unique_id = c ∧ cutoff < r.order_purchase_timestamp) := by
  have hactive : c ∈ activeCustomers df cutoff ↔
      ∃ r ∈ df, r.customer_unique_id = c ∧ r.order_purchase_timestamp ≤ cutoff := by
    simp only [activeCustomers, List.mem_dedup, List.mem_map, List.mem_filter,
      decide_eq_true_eq]
    constructor
    · rintro ⟨r, ⟨hr, hle⟩, hc⟩
      exact ⟨r, hr, hc, hle⟩
    · rintro ⟨r, hr, hc, hle⟩
      exact ⟨r, ⟨hr, hle⟩, hc⟩
  have hafter : c ∈ customersAfterCutoff df cutoff ↔
      ∃ r ∈ df, r.customer_unique_id = c ∧ cutoff < r.order_purchase_timestamp := by
    simp only [customersAfterCutoff, List.mem_dedup, List.mem_map, List.mem_filter,
      decide_eq_true_eq]
    constructor
    · rintro ⟨r, ⟨hr, hlt⟩, hc⟩
      exact ⟨r, hr, hc, hlt⟩
    · rintro ⟨r, hr, hc, hlt⟩
      exact ⟨r, ⟨hr, hlt⟩, hc⟩
  constructor
  · rw [← hactive]
    simp [define_churn, List.mem_map]
  · rw [← hactive, ← hafter]
    simp only [define_churn, List.mem_map, Prod.mk.injEq]
    constructor
    · rintro ⟨a, ha, hac, hlab⟩
      subst hac
      refine ⟨ha, ?_⟩
      intro hmem
      simp [hmem] at hlab
    · rintro ⟨ha, hnot⟩
      refine ⟨c, ha, rfl, ?_⟩
      simp [hnot]

/-! ## Feature Builder and Dataset Assembler -/

/-- Sum of a list of rationals. -/
def qSum (l : List ℚ) : ℚ := l.foldr (· + ·) 0

/-- Mean of a list of rationals (the argument is nonempty wherever the
source takes a mean). -/
def qMean (l : List ℚ) : ℚ := qSum l / l.length

/-- Sample variance (pandas `std(ddof=1)` squared); only used on lists of
length at least 2. -/
def sampleVariance (l : List ℚ) : ℚ :=
  qSum (l.map (fun x => (x - qMean l) ^ 2)) / ((l.length : ℚ) - 1)

/-- Maximum of a list of integers (the lists it is applied to are
nonempty). -/
def listMaxInt (l : List Int) : Int := l.foldr max (l.headD 0)

/-- The groupby group of one customer inside
`df_before_cutoff = df[df['order_purchase_timestamp'] <= cutoff_date]`
(src/utils/KPIs.py line 162): that customer's order-item rows at/before
the cutoff. -/
def rowsOf (df : List OrderRow) (cutoff : Int) (c : String) : List OrderRow :=
  (df.filter (fun r => r.order_purchase_timestamp ≤ cutoff)).filter
    (fun r => r.customer_unique_id = c)

/-- `total_spent` (KPIs.py line 165): sum of `payment_value` over the
customer's rows at/before the cutoff. -/
def total_spent (df : List OrderRow) (cutoff : Int) (c : String) : ℚ :=
  qSum ((rowsOf df cutoff c).map (fun r => r.payment_value))

/-- `num_orders` (KPIs.py line 168): `order_id.nunique()` over the
customer's rows at/before cutoff. -/
def num_orders (df : List OrderRow) (cutoff : Int) (c : String) : Nat :=
  (((rowsOf df cutoff c).map (fun r => r.order_id)).dedup).length

/-- The canceled part of `cancel_rate`'s numerator (KPIs.py line 183):
`groupby(...)['order_id'].count()` counts the customer's canceled
order-item ROWS, with no dedup of `order_id`. -/
def canceledRowCount (df : List OrderRow) (cutoff : Int) (c : String) : Nat :=
  ((rowsOf df cutoff c).filter (fun r => r.order_status = "canceled")).length

/-- What the spec's wording would require instead: the number of DISTINCT
canceled orders of the customer at/before the cutoff. -/
def distinctCanceledOrders (df : List OrderRow) (cutoff : Int) (c : String) : Nat :=
  ((((rowsOf df cutoff c).filter (fun r => r.order_status = "canceled")).map
    (fun r => r.order_id)).dedup).length

/-- One row of the Training Dataset (`churn_analysis_df` in
`load_and_prepare_data`): the inner merge of `calculate_churn_features`
and `define_churn` output on `customer_unique_id`.  `none` models a NaN
cell.  `std2_order_value` stores the SQUARE of pandas' sample std: the
source's value is its square root, and every claim about this column only
compares it with 0.0 or with NaN, both of which are invariant under
squaring. -/
structure MergedRow where
  customer_unique_id : String
  total_spent : ℚ
  num_orders : Nat
  avg_order_value : ℚ
  std2_order_value : Option ℚ
  avg_installments : ℚ
  avg_review : Option ℚ
  cancel_rate : Option ℚ
  recency : Int
  churn : Nat
  deriving DecidableEq, Repr

/-- The merged (pre-fill) row of one active customer, combining the eight
series of `calculate_churn_features` (KPIs.py lines 155-201) with the
`define_churn` label:
* `std2_order_value` is NaN (`none`) when the customer has a single
  order-item row (pandas `std` with `ddof=1`);
* `avg_review` is the mean of the customer's non-NaN review scores
  (pandas `mean` skips NaN) and NaN when they have none;
* `cancel_rate` divides the canceled ROW count by `num_orders`; pandas
  index alignment makes it NaN for customers with no canceled row;
* `recency` is `(cutoff - last_purchase).dt.days`. -/
def rawMergedRow (df : List OrderRow) (cutoff : Int) (c : String) : MergedRow :=
  let rows := rowsOf df cutoff c
  { customer_unique_id := c
    total_spent := total_spent df cutoff c
    num_orders := num_orders df cutoff c
    avg_order_value := total_spent df cutoff c / (num_orders df cutoff c : ℚ)
    std2_order_value :=
      if rows.length ≤ 1 then none
      else some (sampleVariance (rows.map (fun r => r.payment_value)))
    avg_installments := qMean (rows.map (fun r => r.payment_installments))
    avg_review :=
      let rs := rows.filterMap (fun r => r.review_score)
      if rs.isEmpty then none else some (qMean rs)
    cancel_rate :=
      if canceledRowCount df cutoff c = 0 then none
      else some ((canceledRowCount df cutoff c : ℚ) / (num_orders df cutoff c : ℚ))
    recency := cutoff - listMaxInt (rows.map (fun r => r.order_purchase_timestamp))
    churn := if c ∈ customersAfterCutoff df cutoff then 0 else 1 }

/-- Fill rule `std_order_value.fillna(0)` (churn_analysis.py line 83). -/
def fillStd (r : MergedRow) : MergedRow :=
  { r with std2_order_value := some (r.std2_order_value.getD 0) }

/-- Fill rule `cancel_rate.fillna(0)` (churn_analysis.py line 92). -/
def fillCancel (r : MergedRow) : MergedRow :=
  { r with cancel_rate := some (r.cancel_rate.getD 0) }

/-- `churn_analysis_df['avg_review'].mean()` (churn_analysis.py line 87):
pandas means skip NaN cells and give NaN on an all-NaN column. -/
def reviewMeanOf (t : List MergedRow) : Option ℚ :=
  let vs := t.filterMap (fun r => r.avg_review)
  if vs.isEmpty then none else some (qMean vs)

/-- `avg_review.fillna(avg_review_mean)` (churn_analysis.py line 88):
filling with a NaN value is a no-op. -/
def fillReviewWith (m : Option ℚ) (r : MergedRow) : MergedRow :=
  match m with
  | none => r
  | some mu => { r with avg_review := some (r.avg_review.getD mu) }

/-- `load_and_prepare_data` (src/churn_analysis.py lines 30-122): build
the merged table over the active customers, then apply the fill rules in
source order (std 0-fill, review mean-fill, cancel 0-fill, then the
generic mean fill of lines 99-105 — after the fixed fills the only column
that can still hold NaN is `avg_review`, whose column mean is then NaN
again, so the generic pass reduces to one more attempt at the review
fill).  Returns the table together with the final `isna` alert flag of
lines 116-118; the source only PRINTS an alert when NaNs remain and
returns the table regardless. -/
def assembleT0 (df : List OrderRow) (cutoff : Int) : List MergedRow :=
  (activeCustomers df cutoff).map (rawMergedRow df cutoff)

def assembleT1 (df : List OrderRow) (cutoff : Int) : List MergedRow :=
  (assembleT0 df cutoff).map fillStd

def assembleT2 (df : List OrderRow) (cutoff : Int) : List MergedRow :=
  (assembleT1 df cutoff).map (fillReviewWith (reviewMeanOf (assembleT1 df cutoff)))

def assembleT3 (df : List OrderRow) (cutoff : Int) : List MergedRow :=
  (assembleT2 df cutoff).map fillCancel

def assembleT4 (df : List OrderRow) (cutoff : Int) : List MergedRow :=
  (assembleT3 df cutoff).map (fillReviewWith (reviewMeanOf (assembleT3 df cutoff)))

def load_and_prepare_data (df : List OrderRow) (cutoff : Int) :
    List MergedRow × Bool :=
  (assembleT4 df cutoff, (assembleT4 df cutoff).any (fun r =>
    r.std2_order_value.isNone || r.avg_review.isNone || r.cancel_rate.isNone))

/-- A Training Dataset row with no NaN cell. -/
def noNaNRow (r : MergedRow) : Prop :=
  r.std2_order_value.isSome ∧ r.avg_review.isSome ∧ r.cancel_rate.isSome

instance (r : MergedRow) : Decidable (noNaNRow r) := by
  unfold noNaNRow
  infer_instance

lemma mem_rowsOf (df : List OrderRow) (cutoff : Int) (c : String) (r : OrderRow) :
    r ∈ rowsOf df cutoff c ↔
      r ∈ df ∧ r.order_purchase_timestamp ≤ cutoff ∧ r.customer_unique_id = c := by
  simp only [rowsOf, List.mem_filter, decide_eq_true_eq]
  tauto

lemma fillStd_std2 (r : MergedRow) :
    (fillStd r).std2_order_value = some (r.std2_order_value.getD 0) := rfl

lemma fillStd_review (r : MergedRow) : (fillStd r).avg_review = r.avg_review := rfl

lemma fillStd_cancel (r : MergedRow) : (fillStd r).cancel_rate = r.cancel_rate := rfl

lemma fillStd_cid (r : MergedRow) :
    (fillStd r).customer_unique_id = r.customer_unique_id := rfl

lemma fillStd_num (r : MergedRow) : (fillStd r).num_orders = r.num_orders := rfl

lemma fillCancel_cancel (r : MergedRow) :
    (fillCancel r).cancel_rate = some (r.cancel_rate.getD 0) := rfl

lemma fillCancel_std2 (r : MergedRow) :
    (fillCancel r).std2_order_value = r.std2_order_value := rfl

lemma fillCancel_review (r : MergedRow) : (fillCancel r).avg_review = r.avg_review := rfl

lemma fillCancel_cid (r : MergedRow) :
    (fillCancel r).customer_unique_id = r.customer_unique_id := rfl

lemma fillCancel_num (r : MergedRow) : (fillCancel r).num_orders = r.num_orders := rfl

lemma fillReviewWith_std2 (m : Option ℚ) (r : MergedRow) :
    (fillReviewWith m r).std2_order_value = r.std2_order_value := by
  cases m <;> rfl

lemma fillReviewWith_cancel (m : Option ℚ) (r : MergedRow) :
    (fillReviewWith m r).cancel_rate = r.cancel_rate := by
  cases m <;> rfl

lemma fillReviewWith_cid (m : Option ℚ) (r : MergedRow) :
    (fillReviewWith m r).customer_unique_id = r.customer_unique_id := by
  cases m <;> rfl

lemma fillReviewWith_num (m : Option ℚ) (r : MergedRow) :
    (fillReviewWith m r).num_orders = r.num_orders := by
  cases m <;> rfl

lemma fillReviewWith_some_isSome (mu : ℚ) (r : MergedRow) :
    ((fillReviewWith (some mu) r).avg_review).isSome := by
  simp [fillReviewWith]

lemma fillReviewWith_isSome_mono (m : Option ℚ) (r : MergedRow)
    (h : (r.avg_review).isSome) : ((fillReviewWith m r).avg_review).isSome := by
  cases m with
  | none => exact h
  | some mu => exact fillReviewWith_some_isSome mu r

/-- Every Training Dataset row is the fill-composition of the raw merged
row of some active customer (the review-fill arguments are the two column
means, generalized away here because no field below depends on them). -/
lemma load_and_prepare_row_shape (df : List OrderRow) (cutoff : Int)
    (row : MergedRow) (h : row ∈ (load_and_prepare_data df cutoff).1) :
    ∃ c ∈ activeCustomers df cutoff, ∃ m1 m2 : Option ℚ,
      row = fillReviewWith m2
        (fillCancel (fillReviewWith m1 (fillStd (rawMergedRow df cutoff c)))) := by
  simp only [load_and_prepare_data, assembleT4, assembleT3, assembleT2, assembleT1,
    assembleT0] at h
  obtain ⟨y3, hy3, rfl⟩ := List.mem_map.mp h
  obtain ⟨y2, hy2, rfl⟩ := List.mem_map.mp hy3
  obtain ⟨y1, hy1, rfl⟩ := List.mem_map.mp hy2
  obtain ⟨y0, hy0, rfl⟩ := List.mem_map.mp hy1
  obtain ⟨c, hc, rfl⟩ := List.mem_map.mp hy0
  exact ⟨c, hc, _, _, rfl⟩

lemma rawMergedRow_avg_review (df : List OrderRow) (cutoff : Int) (c : String) :
    (rawMergedRow df cutoff c).avg_review =
      (if ((rowsOf df cutoff c).filterMap (fun r => r.review_score)).isEmpty then none
       else some (qMean ((rowsOf df cutoff c).filterMap (fun r => r.review_score)))) := rfl

lemma rawMergedRow_std2 (df : List OrderRow) (cutoff : Int) (c : String) :
    (rawMergedRow df cutoff c).std2_order_value =
      (if (rowsOf df cutoff c).length ≤ 1 then none
       else some (sampleVariance ((rowsOf df cutoff c).map (fun r => r.payment_value)))) := rfl

lemma rawMergedRow_cancel (df : List OrderRow) (cutoff : Int) (c : String) :
    (rawMergedRow df cutoff c).cancel_rate =
      (if canceledRowCount df cutoff c = 0 then none
       else some ((canceledRowCount df cutoff c : ℚ) / (num_orders df cutoff c : ℚ))) := rfl

lemma rawMergedRow_cid (df : List OrderRow) (cutoff : Int) (c : String) :
    (rawMergedRow df cutoff c).customer_unique_id = c := rfl

lemma rawMergedRow_num (df : List OrderRow) (cutoff : Int) (c : String) :
    (rawMergedRow df cutoff c).num_orders = num_orders df cutoff c := rfl

/-! ## Claim C2: the no-NaN invariant of the assembled dataset -/

/-- The order table of C2's counterexample: one valid order-item row (id
and timestamp non-null) whose review score is absent. -/
def dfC2 : List OrderRow := [⟨"o1", "c1", 0, 10, 1, "delivered", none⟩]

/-- C2 fails on the code: on a valid one-row table with no review score
anywhere, the review-mean fill is itself NaN, the returned Training
Dataset still holds a NaN `avg_review` cell, and
`load_and_prepare_data` returns that table anyway (its final check only
raises the alert flag — the source merely prints an ALERTA line — instead
of failing). -/
theorem C2_no_nan_cex :
    ¬ (∀ r ∈ (load_and_prepare_data dfC2 0).1, noNaNRow r) ∧
    (load_and_prepare_data dfC2 0).1 ≠ [] ∧
    (load_and_prepare_data dfC2 0).2 = true := by decide

/-- C2 amended: for every valid input table in which at least one
order-item at/before the cutoff carries a review score, the assembled
Training Dataset has zero NaN cells.  (When no review exists at/before
the cutoff, NaN survives in `avg_review` and the Assembler logs an alert
but still returns the dataset, as `C2_no_nan_cex` shows.) -/
theorem C2_no_nan_amended (df : List OrderRow) (cutoff : Int)
    (h : ∃ r ∈ df, r.order_purchase_timestamp ≤ cutoff ∧ (r.review_score).isSome) :
    ∀ row ∈ (load_and_prepare_data df cutoff).1, noNaNRow row := by
  obtain ⟨r0, hr0, hle, hrev⟩ := h
  have hc0 : r0.customer_unique_id ∈ activeCustomers df cutoff := by
    simp only [activeCustomers, List.mem_dedup, List.mem_map, List.mem_filter,
      decide_eq_true_eq]
    exact ⟨r0, ⟨hr0, hle⟩, rfl⟩
  have hr0rows : r0 ∈ rowsOf df cutoff r0.customer_unique_id :=
    (mem_rowsOf _ _ _ _).mpr ⟨hr0, hle, rfl⟩
  have hraw : ((rawMergedRow df cutoff r0.customer_unique_id).avg_review).isSome := by
    obtain ⟨v, hv⟩ := Option.isSome_iff_exists.mp hrev
    have hvm : v ∈ (rowsOf df cutoff r0.customer_unique_id).filterMap
        (fun r => r.review_score) := List.mem_filterMap.mpr ⟨r0, hr0rows, hv⟩
    have hne : ((rowsOf df cutoff r0.customer_unique_id).filterMap
        (fun r => r.review_score)).isEmpty = false := by
      cases hL : (rowsOf df cutoff r0.customer_unique_id).filterMap
          (fun r => r.review_score) with
      | nil => rw [hL] at hvm; exact absurd hvm (List.not_mem_nil v)
      | cons a as => rfl
    simp [rawMergedRow_avg_review, hne]
  have hfm : ∃ mu : ℚ, reviewMeanOf (assembleT1 df cutoff) = some mu := by
    obtain ⟨v, hv⟩ := Option.isSome_iff_exists.mp
      (show ((fillStd (rawMergedRow df cutoff r0.customer_unique_id)).avg_review).isSome by
        rw [fillStd_review]; exact hraw)
    have hmem : fillStd (rawMergedRow df cutoff r0.customer_unique_id) ∈
        assembleT1 df cutoff := by
      exact List.mem_map_of_mem _ (List.mem_map_of_mem _ hc0)
    have hvm : v ∈ (assembleT1 df cutoff).filterMap (fun r => r.avg_review) :=
      List.mem_filterMap.mpr ⟨_, hmem, hv⟩
    have hne2 : ((assembleT1 df cutoff).filterMap (fun r => r.avg_review)).isEmpty
        = false := by
      cases hL : (assembleT1 df cutoff).filterMap (fun r => r.avg_review) with
      | nil => rw [hL] at hvm; exact absurd hvm (List.not_mem_nil v)
      | cons a as => rfl
    refine ⟨qMean ((assembleT1 df cutoff).filterMap (fun r => r.avg_review)), ?_⟩
    unfold reviewMeanOf
    simp [hne2]
  obtain ⟨mu, hmu⟩ := hfm
  intro row hrow
  simp only [load_and_prepare_data, assembleT4, assembleT3, assembleT2] at hrow
  obtain ⟨y3, hy3, rfl⟩ := List.mem_map.mp hrow
  obtain ⟨y2, hy2, rfl⟩ := List.mem_map.mp hy3
  obtain ⟨y1, hy1, rfl⟩ := List.mem_map.mp hy2
  refine ⟨?_, ?_, ?_⟩
  · -- std_order_value: filled by the std 0-fill of t1 and untouched after
    obtain ⟨y0, hy0, rfl⟩ := List.mem_map.mp
      (show y1 ∈ (assembleT0 df cutoff).map fillStd from hy1)
    rw [fillReviewWith_std2, fillCancel_std2, fillReviewWith_std2, fillStd_std2]
    rfl
  · -- avg_review: the first review fill uses the non-NaN column mean
    rw [hmu]
    apply fillReviewWith_isSome_mono
    rw [fillCancel_review]
    exact fillReviewWith_some_isSome mu _
  · -- cancel_rate: filled by the cancel 0-fill of t2 and untouched after
    rw [fillReviewWith_cancel, fillCancel_cancel]
    rfl

/-- The order table of C2's witness: the same single order-item row, now
with a review score present. -/
def dfC2w : List OrderRow := [⟨"o1", "c1", 0, 10, 1, "delivered", some 5⟩]

/-- The Training Dataset row `load_and_prepare_data dfC2w 0` assembles. -/
def rowC2w : MergedRow :=
  ⟨"c1", 10, 1, 10, some 0, 1, some 5, some 0, 0, 1⟩

theorem C2_no_nan_amended_witness :
    (∃ r ∈ dfC2w, r.order_purchase_timestamp ≤ 0 ∧ (r.review_score).isSome) ∧
    noNaNRow rowC2w :=
  ⟨by decide, C2_no_nan_amended dfC2w 0 (by decide) rowC2w (by decide)⟩

/-! ## Claim C3: the cancel_rate formula -/

/-- The order table of C3's counterexample: one customer with a single
order ("o1") that spans two canceled order-item rows at/before the
cutoff. -/
def dfC3 : List OrderRow :=
  [⟨"o1", "c1", 0, 10, 1, "canceled", some 4⟩,
   ⟨"o1", "c1", 0, 20, 1, "canceled", some 4⟩]

/-- C3 fails on the code: the numerator of `cancel_rate` is a plain row
`count()` while `num_orders` is `nunique()`, so a single canceled order
with two order-item rows yields `cancel_rate = 2/1 = 2`, not the claimed
(distinct canceled orders)/num_orders `= 1/1 = 1`. -/
theorem C3_cancel_rate_cex :
    ∃ r ∈ (load_and_prepare_data dfC3 0).1,
      r.cancel_rate ≠ some ((distinctCanceledOrders dfC3 0 r.customer_unique_id : ℚ) /
        (r.num_orders : ℚ)) := by decide

/-- C3 amended: in the assembled dataset, `cancel_rate` equals the number
of the customer's canceled order-item ROWS at/before the cutoff divided
by `num_orders` (their distinct order count); the Assembler's 0-fill makes
this hold also for customers with no canceled row. -/
theorem C3_cancel_rate_amended (df : List OrderRow) (cutoff : Int) (r : MergedRow)
    (h : r ∈ (load_and_prepare_data df cutoff).1) :
    r.cancel_rate = some ((canceledRowCount df cutoff r.customer_unique_id : ℚ) /
      (r.num_orders : ℚ)) := by
  obtain ⟨c, hc, m1, m2, rfl⟩ := load_and_prepare_row_shape df cutoff r h
  rw [fillReviewWith_cancel, fillCancel_cancel, fillReviewWith_cancel, fillStd_cancel,
    fillReviewWith_cid, fillCancel_cid, fillReviewWith_cid, fillStd_cid, rawMergedRow_cid,
    fillReviewWith_num, fillCancel_num, fillReviewWith_num, fillStd_num, rawMergedRow_num,
    rawMergedRow_cancel]
  by_cases hc0 : canceledRowCount df cutoff c = 0
  · simp [hc0]
  · simp [hc0]

/-- The order table of C3's witness: one canceled single-row order. -/
def dfC3w : List OrderRow := [⟨"o1", "c1", 0, 10, 1, "canceled", some 4⟩]

/-- The Training Dataset row `load_and_prepare_data dfC3w 0` assembles. -/
def rowC3w : MergedRow :=
  ⟨"c1", 10, 1, 10, some 0, 1, some 4, some 1, 0, 1⟩

theorem C3_cancel_rate_amended_witness :
    rowC3w.cancel_rate = some ((canceledRowCount dfC3w 0 rowC3w.customer_unique_id : ℚ) /
      (rowC3w.num_orders : ℚ)) :=
  C3_cancel_rate_amended dfC3w 0 rowC3w (by decide)

/-! ## Claim C9: std_order_value for single-order customers -/

/-- The order table of C9's counterexample: one customer whose single
order "o1" spans two order-item rows with different payment values. -/
def dfC9 : List OrderRow :=
  [⟨"o1", "c1", 0, 10, 1, "delivered", some 4⟩,
   ⟨"o1", "c1", 0, 20, 1, "delivered", some 4⟩]

/-- C9 fails on the code: the std is taken over the customer's order-item
ROWS, not over orders, so a customer with exactly one (distinct) order
spanning two rows of payment values 10 and 20 gets the sample std of
those two rows (std² = 50), not 0.0. -/
theorem C9_single_order_std_cex :
    ∃ r ∈ (load_and_prepare_data dfC9 0).1,
      r.num_orders = 1 ∧ r.std2_order_value ≠ some 0 := by decide

/-- C9 amended: in the assembled dataset `std_order_value` is never NaN,
and it equals 0.0 for every customer with exactly one order-item row
at/before the cutoff (the pandas single-row NaN replaced by the
Assembler's 0-fill); a single-order customer whose order spans several
order-item rows instead gets the sample std of those rows' payment
values. -/
theorem C9_single_order_std_amended (df : List OrderRow) (cutoff : Int) (r : MergedRow)
    (h : r ∈ (load_and_prepare_data df cutoff).1) :
    (r.std2_order_value).isSome ∧
    ((rowsOf df cutoff r.customer_unique_id).length = 1 →
      r.std2_order_value = some 0) := by
  obtain ⟨c, hc, m1, m2, rfl⟩ := load_and_prepare_row_shape df cutoff r h
  rw [fillReviewWith_std2, fillCancel_std2, fillReviewWith_std2, fillStd_std2,
    fillReviewWith_cid, fillCancel_cid, fillReviewWith_cid, fillStd_cid, rawMergedRow_cid]
  refine ⟨rfl, ?_⟩
  intro h1
  rw [rawMergedRow_std2, if_pos (by omega : (rowsOf df cutoff c).length ≤ 1)]
  rfl

/-- The order table of C9's witness: one customer with one single-row
order. -/
def dfC9w : List OrderRow := [⟨"o1", "c1", 0, 10, 1, "delivered", some 4⟩]

/-- The Training Dataset row `load_and_prepare_data dfC9w 0` assembles. -/
def rowC9w : MergedRow :=
  ⟨"c1", 10, 1, 10, some 0, 1, some 4, some 0, 0, 1⟩

theorem C9_single_order_std_amended_witness :
    (rowC9w.std2_order_value).isSome ∧
    ((rowsOf dfC9w 0 rowC9w.customer_unique_id).length = 1 →
      rowC9w.std2_order_value = some 0) :=
  C9_single_order_std_amended dfC9w 0 rowC9w (by decide)

/-! ## Claim C4: the Imbalance Corrector -/

/-- A training feature matrix: one inner list per sample; `none` is a NaN
cell. -/
abbrev OMat : Type := List (List (Option ℚ))

/-- `X_train.isna().any().any()` (churn_analysis.py lines 258-264). -/
def hasNaN (X : OMat) : Bool :=
  X.any (fun row => row.any (fun o => o.isNone))

/-- The NaN guard of `rebalance_data` (churn_analysis.py lines 257-267):
`fillna(0)` applied only when some NaN is present, otherwise the matrix
object is returned untouched. -/
def fillnaZero (X : OMat) : OMat :=
  if hasNaN X then X.map (fun row => row.map (fun o => some (o.getD 0))) else X

/-- The rows of one class of a labelled training set. -/
def classRows (X : OMat) (y : List Nat) (c : Nat) : OMat :=
  ((X.zip y).filter (fun p => p.2 = c)).map Prod.fst

/-- Midpoint interpolation of two samples (one SMOTE synthetic point). -/
def midRow (a b : List (Option ℚ)) : List (Option ℚ) :=
  (a.zip b).map (fun p => some ((p.1.getD 0 + p.2.getD 0) / 2))

/-- Modelled from the spec: `SMOTE(random_state=42).fit_resample` — the
imblearn library call of churn_analysis.py lines 270-271, whose code is
not in src/.  Per the spec's §4.4, oversampling synthesizes
minority-class examples by interpolating between same-class neighbours
until the class counts are equal, fails when both classes are not
present, and fails with InsufficientSamples when the minority class has
fewer than k+1 = 6 samples (k_neighbors = 5).  Which neighbour pairs get
interpolated is random in the library and irrelevant to every claim (the
claims concern only class counts), so each synthetic point is modelled as
the midpoint of two cyclically-successive minority rows, appended after
the original samples as the library does. -/
def smoteResample (X : OMat) (y : List Nat) : Except String (OMat × List Nat) :=
  let n0 := y.count 0
  let n1 := y.count 1
  if n0 = 0 ∨ n1 = 0 then
    .error "SMOTE requires samples of at least two classes"
  else if n0 = n1 then .ok (X, y)
  else
    let minC := if n0 < n1 then 0 else 1
    let m := min n0 n1
    let target := max n0 n1
    if m ≤ 5 then .error "InsufficientSamples: expected n_neighbors <= n_samples"
    else
      let Xmin := classRows X y minC
      let synth := (List.range (target - m)).map (fun i =>
        midRow (Xmin.getD (i % m) []) (Xmin.getD ((i + 1) % m) []))
      .ok (X ++ synth, y ++ List.replicate (target - m) minC)

/-- Modelled from the spec: `RandomUnderSampler(random_state=42).fit_resample`
— the imblearn library call of churn_analysis.py lines 273-274, whose
code is not in src/.  Per the spec's §4.4 it randomly drops
majority-class samples without replacement until the class counts are
equal; which rows get dropped is random in the library and irrelevant to
every claim, so the model keeps each class's first `min`-count rows,
grouped by class as the library's per-class index concatenation does. -/
def underResample (X : OMat) (y : List Nat) : Except String (OMat × List Nat) :=
  let n0 := y.count 0
  let n1 := y.count 1
  if n0 = 0 ∨ n1 = 0 then
    .error "resampling requires samples of at least two classes"
  else
    let m := min n0 n1
    .ok ((classRows X y 0).take m ++ (classRows X y 1).take m,
      List.replicate m 0 ++ List.replicate m 1)

/-- `rebalance_data` (src/churn_analysis.py lines 237-281): zero-fill any
NaN cell first (lines 257-267, applied under every strategy), then
dispatch on the method; any method other than smote/undersample is the
pass-through branch. -/
def rebalance_data (X : OMat) (y : List Nat) (method : String) :
    Except String (OMat × List Nat) :=
  let Xf := fillnaZero X
  if method = "smote" then smoteResample Xf y
  else if method = "undersample" then underResample Xf y
  else .ok (Xf, y)

instance {e a : Type} [DecidableEq e] [DecidableEq a] : DecidableEq (Except e a) :=
  fun x y =>
    match x, y with
    | .ok u, .ok v =>
      if h : u = v then isTrue (by rw [h])
      else isFalse (fun hc => h (Except.ok.inj hc))
    | .error u, .error v =>
      if h : u = v then isTrue (by rw [h])
      else isFalse (fun hc => h (Except.error.inj hc))
    | .ok _, .error _ => isFalse (fun hc => Except.noConfusion hc)
    | .error _, .ok _ => isFalse (fun hc => Except.noConfusion hc)

/-- C4's counterexample input: a NaN cell in the first sample, one sample
of each class. -/
def XC4 : OMat := [[none], [some 1]]

def yC4 : List Nat := [0, 1]

/-- C4 fails on the code: with both classes present, under strategy
"none" `rebalance_data` does NOT return `(X_train, y_train)` unchanged
when `X_train` holds a NaN cell — the NaN guard zero-fills the matrix
before the pass-through branch, so the returned matrix differs from the
input. -/
theorem C4_rebalance_cex :
    (0 ∈ yC4 ∧ 1 ∈ yC4) ∧
    rebalance_data XC4 yC4 "none" ≠ .ok (XC4, yC4) := by decide

/-- C4 amended: whenever smote or undersample succeeds the class counts
of the output are exactly equal; strategy "none" passes the pair through
unchanged except for the NaN zero-fill guard shared by every strategy
(so it returns the input itself exactly when the input has no NaN
cell). -/
theorem C4_rebalance_amended (X : OMat) (y : List Nat) :
    (∀ X2 y2, rebalance_data X y "smote" = .ok (X2, y2) →
      y2.count 0 = y2.count 1) ∧
    (∀ X2 y2, rebalance_data X y "undersample" = .ok (X2, y2) →
      y2.count 0 = y2.count 1) ∧
    rebalance_data X y "none" = .ok (fillnaZero X, y) ∧
    (hasNaN X = false → fillnaZero X = X) := by
  refine ⟨?_, ?_, rfl, ?_⟩
  · intro X2 y2 h
    unfold rebalance_data at h
    rw [if_pos rfl] at h
    unfold smoteResample at h
    by_cases h01 : y.count 0 = 0 ∨ y.count 1 = 0
    · rw [if_pos h01] at h
      exact absurd h (by simp)
    · rw [if_neg h01] at h
      by_cases heq : y.count 0 = y.count 1
      · rw [if_pos heq] at h
        injection h with hp
        simp only [Prod.mk.injEq] at hp
        obtain ⟨-, rfl⟩ := hp
        exact heq
      · rw [if_neg heq] at h
        by_cases hm : min (y.count 0) (y.count 1) ≤ 5
        · rw [if_pos hm] at h
          exact absurd h (by simp)
        · rw [if_neg hm] at h
          injection h with hp
          simp only [Prod.mk.injEq] at hp
          obtain ⟨-, rfl⟩ := hp
          by_cases hlt : y.count 0 < y.count 1
          · rw [if_pos hlt]
            simp only [List.count_append, List.count_replicate]
            simp
            omega
          · rw [if_neg hlt]
            simp only [List.count_append, List.count_replicate]
            simp
            omega
  · intro X2 y2 h
    unfold rebalance_data at h
    rw [if_neg (by decide), if_pos rfl] at h
    unfold underResample at h
    by_cases h01 : y.count 0 = 0 ∨ y.count 1 = 0
    · rw [if_pos h01] at h
      exact absurd h (by simp)
    · rw [if_neg h01] at h
      injection h with hp
      simp only [Prod.mk.injEq] at hp
      obtain ⟨-, rfl⟩ := hp
      simp [List.count_append, List.count_replicate]
  · intro hn
    unfold fillnaZero
    rw [hn]
    rfl

/-- C4 witness input: six class-0 samples and seven class-1 samples, no
NaN cell. -/
def XC4w : OMat :=
  [[some 0], [some 1], [some 2], [some 3], [some 4], [some 5], [some 6],
   [some 7], [some 8], [some 9], [some 10], [some 11], [some 12]]

def yC4w : List Nat := [0, 0, 0, 0, 0, 0, 1, 1, 1, 1, 1, 1, 1]

/-- What smote returns on the witness input: one synthetic minority
midpoint appended. -/
def X2C4w : OMat := XC4w ++ [[some (1/2)]]

def y2C4w : List Nat := yC4w ++ [0]

/-- What undersample returns on the witness input: the first six rows of
each class. -/
def y3C4w : List Nat := List.replicate 6 0 ++ List.replicate 6 1

def X3C4w : OMat :=
  [[some 0], [some 1], [some 2], [some 3], [some 4], [some 5], [some 6],
   [some 7], [some 8], [some 9], [some 10], [some 11]]

theorem C4_rebalance_amended_witness :
    y2C4w.count 0 = y2C4w.count 1 ∧
    y3C4w.count 0 = y3C4w.count 1 ∧
    rebalance_data XC4w yC4w "none" = .ok (fillnaZero XC4w, yC4w) ∧
    fillnaZero XC4w = XC4w :=
  ⟨(C4_rebalance_amended XC4w yC4w).1 X2C4w y2C4w (by decide),
   (C4_rebalance_amended XC4w yC4w).2.1 X3C4w y3C4w (by decide),
   (C4_rebalance_amended XC4w yC4w).2.2.1,
   (C4_rebalance_amended XC4w yC4w).2.2.2 (by decide)⟩

/-! ## Claim C5: scaler train/test isolation -/

/-- A NaN-free feature matrix (after the zero-fill guard). -/
abbrev QMat : Type := List (List ℚ)

/-- Integer-precision square root on ℚ (floor of the real square root of
`num * den`, over `den`).  Stands in for the float square root inside the
scaler's scale factor; no theorem below depends on the numeric value of a
transformed cell, only on which data the scaler was fitted on. -/
def qSqrt (q : ℚ) : ℚ := (Nat.sqrt (q.num.toNat * q.den) : ℚ) / (q.den : ℚ)

/-- The fitted state of `sklearn.preprocessing.StandardScaler`: per-column
mean and population variance (its `mean_` and `var_` attributes). -/
structure ScalerS where
  mean : List ℚ
  var : List ℚ
  deriving DecidableEq, Repr

/-- Column `j` of a matrix. -/
def colOf (X : QMat) (j : Nat) : List ℚ := X.map (fun row => row.getD j 0)

/-- Number of feature columns. -/
def nCols (X : QMat) : Nat := (X.headD []).length

/-- `StandardScaler.fit`: column means and population variances of the
data it is fitted on. -/
def fitScaler (X : QMat) : ScalerS :=
  { mean := (List.range (nCols X)).map (fun j => qMean (colOf X j))
    var := (List.range (nCols X)).map (fun j =>
      qMean ((colOf X j).map (fun x => (x - qMean (colOf X j)) ^ 2))) }

/-- sklearn's per-column scale: the square root of the variance, with
zero variance mapped to scale 1 (`_handle_zeros_in_scale`). -/
def scaleFactor (v : ℚ) : ℚ := if v = 0 then 1 else qSqrt v

/-- `StandardScaler.transform`: center by the fitted mean and divide by
the fitted scale, column by column. -/
def scalerTransform (s : ScalerS) (X : QMat) : QMat :=
  X.map (fun row => (List.range row.length).map (fun j =>
    (row.getD j 0 - s.mean.getD j 0) / scaleFactor (s.var.getD j 0)))

/-- A `transform` call on the scaler object, state-passing style: sklearn
`transform` reads the fitted parameters and returns the scaled matrix
without modifying the scaler, so the call returns the same state it was
given. -/
def scalerTransformCall (s : ScalerS) (X : QMat) : QMat × ScalerS :=
  (scalerTransform s X, s)

/-- Zero-fill of `normalize_data`'s NaN guard (churn_analysis.py lines
208-228); the source applies it only when a NaN is present, which returns
the same cell contents in either case. -/
def toFilled (X : OMat) : QMat := X.map (fun row => row.map (fun o => o.getD 0))

/-- `normalize_data` (src/churn_analysis.py lines 192-235): zero-fill the
NaN cells, fit the scaler on the training split (`fit_transform`, the
only `fit` in the whole pipeline), then transform the test split.  Also
returns the list of matrices the scaler was fitted on — one entry per
`fit` call in the source. -/
def normalize_data (Xtr Xte : OMat) : QMat × QMat × ScalerS × List QMat :=
  let a := toFilled Xtr
  let b := toFilled Xte
  let s := fitScaler a
  let trOut := scalerTransform s a
  let call := scalerTransformCall s b
  (trOut, call.1, call.2, [a])

/-- Lift a NaN-free matrix back to the Option-cell representation used by
`rebalance_data`. -/
def toOMat (X : QMat) : OMat := X.map (fun row => row.map some)

/-- Steps 5-7 of `main` (src/churn_analysis.py lines 603-621): normalize
(which fits the scaler), then rebalance the training split only — and
only when a rebalance method is requested — then hand the rebalanced
training data to the trainer.  The scaler object is never touched after
`normalize_data`; the function returns the scaler with its fit log
alongside the rebalance result. -/
def pipelineScaler (Xtr Xte : OMat) (ytr : List Nat) (method : String) :
    (ScalerS × List QMat) × Except String (OMat × List Nat) :=
  let n := normalize_data Xtr Xte
  let reb :=
    if method ≠ "none" then rebalance_data (toOMat n.1) ytr method
    else .ok (toOMat n.1, ytr)
  ((n.2.2.1, n.2.2.2), reb)

/-- C5: in every pipeline run the scaler is fitted exactly once — the fit
log holds the single entry of the zero-filled raw training split — its
fitted mean/variance parameters equal `fitScaler` of that training split
alone (no dependence on the test split, the labels, or the rebalance
method, which is applied only after fitting), and the `transform` call on
the test split returns the fitted state unchanged. -/
theorem C5_scaler_isolation (Xtr Xte : OMat) (ytr : List Nat) (method : String) :
    (pipelineScaler Xtr Xte ytr method).1.1 = fitScaler (toFilled Xtr) ∧
    (pipelineScaler Xtr Xte ytr method).1.2 = [toFilled Xtr] ∧
    (scalerTransformCall (fitScaler (toFilled Xtr)) (toFilled Xte)).2 =
      fitScaler (toFilled Xtr) := by
  exact ⟨rfl, rfl, rfl⟩

/-! ## Claim C6: grid search with cv = 0 -/

/-- How `train_model`'s dispatch (churn_analysis.py lines 351-392) fits
the returned classifier. -/
inductive FitMode where
  /-- `GridSearchCV` over stratified folds, best estimator refit on the
  full training set. -/
  | gridSearchRefit (folds : Nat)
  /-- Diagnostic stratified cross-validation, then a refit on the full
  training set. -/
  | cvThenFullFit (folds : Nat)
  /-- A single direct `fit` on the full training set. -/
  | directFit
  deriving DecidableEq, Repr

/-- The classifier `train_model` returns: its family, class-weight mode,
how it was fitted, and the training data it was (finally) fitted on. -/
structure FittedModel where
  family : String
  class_weight : Option String
  mode : FitMode
  Xfit : QMat
  yfit : List Nat
  deriving DecidableEq, Repr

/-- `train_model` (src/churn_analysis.py lines 283-394): unsupported
families raise ValueError (line 349); otherwise `if cv and grid_search:`
runs grid search, `elif cv:` runs diagnostic cross-validation then a full
refit, `else:` fits directly.  Python's truthiness makes `cv = 0` and
`cv = None` (the entry point maps 0 to None, line 710) take the same
branch, modelled here as `cv = 0`. -/
def train_model (X : QMat) (y : List Nat) (model_type : String)
    (class_weight : Option String) (cv : Nat) (grid_search : Bool) :
    Except String FittedModel :=
  if model_type = "random_forest" ∨ model_type = "xgboost" ∨
      model_type = "logistic_regression" then
    if cv ≠ 0 ∧ grid_search then
      .ok ⟨model_type, class_weight, .gridSearchRefit cv, X, y⟩
    else if cv ≠ 0 then
      .ok ⟨model_type, class_weight, .cvThenFullFit cv, X, y⟩
    else
      .ok ⟨model_type, class_weight, .directFit, X, y⟩
  else
    .error ("Modelo " ++ model_type ++ " não suportado")

/-- C6 fails on the code: requesting grid search with cv = 0 does not
raise a configuration error — `if cv and grid_search:` is falsy, so the
trainer silently fits the configured model directly on the training set
and returns it. -/
theorem C6_grid_search_cv0_cex :
    train_model [[1]] [0] "random_forest" (some "balanced") 0 true =
      .ok ⟨"random_forest", some "balanced", .directFit, [[1]], [0]⟩ := by decide

/-- C6 amended: grid search requested with cv = 0 is silently ignored
rather than rejected — for every supported model family the Trainer
returns a model fitted directly on the full training set, with no grid
search and no error. -/
theorem C6_grid_search_cv0_amended (X : QMat) (y : List Nat) (mt : String)
    (cw : Option String)
    (h : mt = "random_forest" ∨ mt = "xgboost" ∨ mt = "logistic_regression") :
    train_model X y mt cw 0 true = .ok ⟨mt, cw, .directFit, X, y⟩ := by
  unfold train_model
  rw [if_pos h]
  rfl

theorem C6_grid_search_cv0_amended_witness :
    train_model [[1]] [1] "xgboost" none 0 true =
      .ok ⟨"xgboost", none, .directFit, [[1]], [1]⟩ :=
  C6_grid_search_cv0_amended [[1]] [1] "xgboost" none (by decide)

/-! ## Claim C7: the Evaluator -/

/-- The number of (true, predicted) label pairs equal to `(a, b)`. -/
def pairCount (yt yp : List Nat) (a b : Nat) : Nat :=
  ((yt.zip yp).filter (fun p => p.1 = a ∧ p.2 = b)).length

/-- Ascending insertion into a sorted list of naturals. -/
def insNatAsc (a : Nat) : List Nat → List Nat
  | [] => [a]
  | b :: bs => if a ≤ b then a :: b :: bs else b :: insNatAsc a bs

/-- The sorted distinct labels of `y_true ++ y_pred`, as sklearn's metric
functions use them. -/
def labelsOf (yt yp : List Nat) : List Nat :=
  ((yt ++ yp).dedup).foldr insNatAsc []

/-- `precision_score` for one class, `zero_division -> 0`. -/
def precisionOf (yt yp : List Nat) (c : Nat) : ℚ :=
  let pp := yp.count c
  if pp = 0 then 0 else (pairCount yt yp c c : ℚ) / (pp : ℚ)

/-- `recall_score` for one class, `zero_division -> 0`. -/
def recallOf (yt yp : List Nat) (c : Nat) : ℚ :=
  let sup := yt.count c
  if sup = 0 then 0 else (pairCount yt yp c c : ℚ) / (sup : ℚ)

/-- Per-class F1, 0 when precision + recall vanish. -/
def f1Of (yt yp : List Nat) (c : Nat) : ℚ :=
  let p := precisionOf yt yp c
  let r := recallOf yt yp c
  if p + r = 0 then 0 else 2 * p * r / (p + r)

/-- `accuracy_score`. -/
def accuracyOf (yt yp : List Nat) : ℚ :=
  (((yt.zip yp).filter (fun p => p.1 = p.2)).length : ℚ) / (yt.length : ℚ)

/-- Support-weighted average of a per-class metric (sklearn
`average='weighted'`). -/
def weightedAvg (yt yp : List Nat) (f : Nat → ℚ) : ℚ :=
  qSum ((labelsOf yt yp).map (fun c => (yt.count c : ℚ) * f c)) / (yt.length : ℚ)

/-- Unweighted average of a per-class metric (sklearn `average='macro'`). -/
def macroAvg (yt yp : List Nat) (f : Nat → ℚ) : ℚ :=
  qSum ((labelsOf yt yp).map f) / ((labelsOf yt yp).length : ℚ)

/-- `confusion_matrix`: rows = true class, columns = predicted class,
labels in ascending order. -/
def confusionMatrixOf (yt yp : List Nat) : List (List Nat) :=
  (labelsOf yt yp).map (fun a => (labelsOf yt yp).map (fun b => pairCount yt yp a b))

/-- `roc_auc_score` on positive-class probabilities: the Mann-Whitney
statistic (ties count one half), failing like sklearn when `y_true` holds
a single class. -/
def aucRoc (yt : List Nat) (pr : List ℚ) : Except String ℚ :=
  let pairs := yt.zip pr
  let pos := (pairs.filter (fun p => p.1 = 1)).map Prod.snd
  let neg := (pairs.filter (fun p => p.1 = 0)).map Prod.snd
  if pos.isEmpty ∨ neg.isEmpty then
    .error "Only one class present in y_true. ROC AUC score is not defined in that case."
  else
    .ok (qSum (pos.map (fun p => qSum (neg.map (fun n =>
      if n < p then 1 else if n = p then 1/2 else 0)))) /
      ((pos.length : ℚ) * (neg.length : ℚ)))

/-- Descending insertion into a sorted list of rationals. -/
def insQDesc (a : ℚ) : List ℚ → List ℚ
  | [] => [a]
  | b :: bs => if b ≤ a then a :: b :: bs else b :: insQDesc a bs

/-- Distinct predicted probabilities in descending order: the decision
thresholds of the precision-recall sweep. -/
def thresholdsOf (pr : List ℚ) : List ℚ := (pr.dedup).foldr insQDesc []

/-- Precision at one decision threshold (predict 1 iff probability ≥ t). -/
def precAt (yt : List Nat) (pr : List ℚ) (t : ℚ) : ℚ :=
  let pp := (pr.filter (fun x => t ≤ x)).length
  let tp := ((yt.zip pr).filter (fun p => p.1 = 1 ∧ t ≤ p.2)).length
  if pp = 0 then 0 else (tp : ℚ) / (pp : ℚ)

/-- Recall at one decision threshold. -/
def recAt (yt : List Nat) (pr : List ℚ) (t : ℚ) : ℚ :=
  let tot := yt.count 1
  let tp := ((yt.zip pr).filter (fun p => p.1 = 1 ∧ t ≤ p.2)).length
  if tot = 0 then 0 else (tp : ℚ) / (tot : ℚ)

/-- The step sum of `average_precision_score` over descending thresholds:
sum of (R_n - R_prev) * P_n. -/
def apFold (yt : List Nat) (pr : List ℚ) : List ℚ → ℚ → ℚ
  | [], _ => 0
  | t :: ts, prevR =>
    (recAt yt pr t - prevR) * precAt yt pr t + apFold yt pr ts (recAt yt pr t)

/-- `average_precision_score` from positive-class probabilities. -/
def average_precision_score (yt : List Nat) (pr : List ℚ) : ℚ :=
  apFold yt pr (thresholdsOf pr) 0

/-- `precision_recall_curve`: precision points, recall points (with the
terminal (1, 0) pair) and the thresholds of the sweep. -/
def precision_recall_curve (yt : List Nat) (pr : List ℚ) :
    List ℚ × List ℚ × List ℚ :=
  ((thresholdsOf pr).map (precAt yt pr) ++ [1],
   (thresholdsOf pr).map (recAt yt pr) ++ [0],
   thresholdsOf pr)

/-- The per-class rows of `classification_report` (class, precision,
recall, f1, support); the source renders this table as text. -/
def classificationReportRows (yt yp : List Nat) : List (Nat × ℚ × ℚ × ℚ × Nat) :=
  (labelsOf yt yp).map (fun c =>
    (c, precisionOf yt yp c, recallOf yt yp c, f1Of yt yp c, yt.count c))

/-- `feature_display_names` (churn_analysis.py lines 452-461) with its
`dict.get(name, name)` default. -/
def feature_display_names (n : String) : String :=
  if n = "recency" then "Dias desde última compra"
  else if n = "num_orders" then "Número de compras"
  else if n = "total_spent" then "Valor total gasto"
  else if n = "avg_order_value" then "Valor médio por pedido"
  else if n = "std_order_value" then "Variação nos valores dos pedidos"
  else if n = "avg_installments" then "Média de parcelas"
  else if n = "cancel_rate" then "Taxa de cancelamento"
  else if n = "avg_review" then "Avaliação média"
  else n

/-- A feature-importance entry: display name, original column name,
importance. -/
abbrev ImpEntry : Type := String × String × ℚ

def impKey (x : ImpEntry) : ℚ := x.2.2

/-- Descending insertion by importance. -/
def insImpDesc (a : ImpEntry) : List ImpEntry → List ImpEntry
  | [] => [a]
  | b :: bs => if impKey b ≤ impKey a then a :: b :: bs else b :: insImpDesc a bs

/-- `feature_importance.sort_values('Importance', ascending=False)`
(churn_analysis.py line 472), as an insertion sort (the pandas tie order
is an unspecified detail no claim depends on). -/
def sortImpDesc (l : List ImpEntry) : List ImpEntry := l.foldr insImpDesc []

/-- The held-out test matrix as `evaluate_model` receives it: `cols` is
`some` of the column-name list when the object is a pandas DataFrame and
`none` when it is a bare numpy array (which is what `main` passes at line
624, the output of the scaler's `transform`); a numpy array has no
`.columns` attribute. -/
structure TestData where
  cols : Option (List String)
  data : QMat

/-- The fitted classifier as the Evaluator sees it: a prediction
function, a two-column probability function, and the per-feature
importances exposed by `feature_importances_` when present (the
`hasattr` check of line 448). -/
structure ClassifierModel where
  predict : QMat → List Nat
  predict_proba : QMat → List (ℚ × ℚ)
  feature_importances : Option (List ℚ)

/-- The metrics dictionary `evaluate_model` returns (churn_analysis.py
lines 475-487). -/
structure MetricsBundle where
  accuracy : ℚ
  precision_weighted : ℚ
  recall_weighted : ℚ
  f1_macro : ℚ
  f1_weighted : ℚ
  classification_report : List (Nat × ℚ × ℚ × ℚ × Nat)
  confusion_matrix : List (List Nat)
  auc_roc : ℚ
  avg_precision : ℚ
  precision_recall_curve : List ℚ × List ℚ × List ℚ
  feature_importance : Option (List ImpEntry)
  deriving DecidableEq, Repr

/-- The feature-importance block of `evaluate_model` (lines 446-473):
when the model exposes importances the code reads
`X_test.columns.tolist()`; a bare numpy test matrix has no `columns`
attribute, so that access raises AttributeError; with a DataFrame it
builds the display/original/importance table sorted descending. -/
def featureImportanceOf (model : ClassifierModel) (xt : TestData) :
    Except String (Option (List ImpEntry)) :=
  match model.feature_importances with
  | none => .ok none
  | some imps =>
    match xt.cols with
    | none => .error "AttributeError: numpy.ndarray object has no attribute columns"
    | some names =>
      .ok (some (sortImpDesc ((names.zip imps).map
        (fun p => (feature_display_names p.1, p.1, p.2)))))

/-- `evaluate_model` (src/churn_analysis.py lines 396-487): predictions,
positive-class probabilities (`predict_proba(...)[:, 1]`), the metric
suite in source order — `roc_auc_score` raises before the
feature-importance block does — then the returned bundle. -/
def evaluate_model (model : ClassifierModel) (xt : TestData) (yt : List Nat) :
    Except String MetricsBundle :=
  let yp := model.predict xt.data
  let pr := (model.predict_proba xt.data).map Prod.snd
  match aucRoc yt pr with
  | .error e => .error e
  | .ok auc =>
    match featureImportanceOf model xt with
    | .error e => .error e
    | .ok fi =>
      .ok { accuracy := accuracyOf yt yp
            precision_weighted := weightedAvg yt yp (precisionOf yt yp)
            recall_weighted := weightedAvg yt yp (recallOf yt yp)
            f1_macro := macroAvg yt yp (f1Of yt yp)
            f1_weighted := weightedAvg yt yp (f1Of yt yp)
            classification_report := classificationReportRows yt yp
            confusion_matrix := confusionMatrixOf yt yp
            auc_roc := auc
            avg_precision := average_precision_score yt pr
            precision_recall_curve := precision_recall_curve yt pr
            feature_importance := fi }

/-- The fitted default-configuration classifier of C7's failing run: it
exposes `feature_importances_` (as random_forest and xgboost do). -/
def modelC7 : ClassifierModel :=
  { predict := fun _ => [0, 1]
    predict_proba := fun _ => [(3/4, 1/4), (1/4, 3/4)]
    feature_importances := some [3/5, 2/5] }

/-- The test matrix exactly as `main` (line 624) passes it: the numpy
array produced by the scaler's `transform`, which has no column names. -/
def xtC7 : TestData := ⟨none, [[1, 2], [3, 4]]⟩

/-- C7 names a code bug: on the pipeline's own default path the Evaluator
never returns the bundle — `main` passes the scaled numpy test matrix,
the default random_forest model exposes importances, and the evaluator's
`X_test.columns.tolist()` raises AttributeError instead of producing the
descending feature-importance ranking the code itself later consumes
(report text, plots). -/
theorem C7_evaluator_importance_bug :
    evaluate_model modelC7 xtC7 [0, 1] =
      .error "AttributeError: numpy.ndarray object has no attribute columns" := by
  decide

/-! ## Claim C8: the Artifact Store's save -/

/-- The four objects `save_model_and_results` persists (their serialized
contents, opaque here). -/
structure ArtifactBundle where
  model : String
  scaler : String
  feature_columns : String
  results : String
  deriving DecidableEq, Repr

/-- The models/ directory: one slot per artifact file, `none` when the
file does not exist yet. -/
structure ArtifactStore where
  churn_model : Option String
  churn_scaler : Option String
  churn_feature_columns : Option String
  churn_analysis_results : Option String
  deriving DecidableEq, Repr

/-- `save_model_and_results` (src/churn_analysis.py lines 489-514): four
sequential file writes inside one try/except.  `failAt` injects an
exception at the given write (`none` = no failure); a write that raises
leaves its own and the later files untouched, but the earlier writes have
already replaced the previous files — there is no rollback.  The except
branch prints the error and returns `False`; success returns `True`. -/
def save_model_and_results (failAt : Option (Fin 4)) (b : ArtifactBundle)
    (s : ArtifactStore) : Bool × ArtifactStore :=
  if failAt = some 0 then (false, s)
  else
    let s1 := { s with churn_model := some b.model }
    if failAt = some 1 then (false, s1)
    else
      let s2 := { s1 with churn_scaler := some b.scaler }
      if failAt = some 2 then (false, s2)
      else
        let s3 := { s2 with churn_feature_columns := some b.feature_columns }
        if failAt = some 3 then (false, s3)
        else (true, { s3 with churn_analysis_results := some b.results })

/-- Slot `i` of the store, in write order. -/
def slotGet (s : ArtifactStore) : Fin 4 → Option String
  | 0 => s.churn_model
  | 1 => s.churn_scaler
  | 2 => s.churn_feature_columns
  | 3 => s.churn_analysis_results

/-- Component `i` of the bundle, in write order. -/
def bundleGet (b : ArtifactBundle) : Fin 4 → String
  | 0 => b.model
  | 1 => b.scaler
  | 2 => b.feature_columns
  | 3 => b.results

/-- A previously saved complete bundle. -/
def oldStoreC8 : ArtifactStore := ⟨some "m0", some "s0", some "f0", some "r0"⟩

/-- The bundle of the failing run. -/
def newBundleC8 : ArtifactBundle := ⟨"m1", "s1", "f1", "r1"⟩

/-- C8 fails on the code: a save that raises at the second write (the
scaler file) does report the failure — the call returns False — but the
previous artifact bundle is NOT left intact: the model file has already
been overwritten with the new run's model, leaving a partially committed
bundle. -/
theorem C8_save_cex :
    (save_model_and_results (some 1) newBundleC8 oldStoreC8).1 = false ∧
    (save_model_and_results (some 1) newBundleC8 oldStoreC8).2 ≠ oldStoreC8 := by
  decide

/-- C8 amended: the failure is still reported to the caller (`False` is
returned exactly when some write raised), but the writes preceding the
failing one are already committed with the new contents, while the
failing and later files keep their previous contents; only a fully
successful save replaces all four. -/
theorem C8_save_amended (failAt : Option (Fin 4)) (b : ArtifactBundle)
    (s : ArtifactStore) :
    ((save_model_and_results failAt b s).1 = true ↔ failAt = none) ∧
    (∀ i : Fin 4,
      slotGet (save_model_and_results failAt b s).2 i =
        match failAt with
        | none => some (bundleGet b i)
        | some j => if i < j then some (bundleGet b i) else slotGet s i) := by
  constructor
  · match failAt with
    | none => simp [save_model_and_results]
    | some j => fin_cases j <;> simp [save_model_and_results]
  · intro i
    match failAt with
    | none => fin_cases i <;> rfl
    | some j => fin_cases j <;> fin_cases i <;> rfl

/-! ## Claim C10: the Predictor's missing-feature rejection -/

/-- The prediction block of the dashboard's churn page
(src/paginas/analise_churn.py lines 849-866): build a one-row frame from
the input pairs; if any persisted feature column is absent, show the
error "Faltam as seguintes features" carrying the missing-column list
and stop; otherwise reorder the columns to the persisted order, apply the
persisted scaler's transform and return the fitted model's class-1
probability.  The error value carries the very list the source's message
interpolates; `predict_proba_one` is the loaded model's probability
function for one row. -/
def predict_churn (feature_columns : List String) (input_data : List (String × ℚ))
    (scaler : ScalerS) (predict_proba_one : List ℚ → ℚ × ℚ) :
    Except (List String) ℚ :=
  let missing := feature_columns.filter
    (fun c => ¬ (input_data.map Prod.fst).contains c)
  if missing.isEmpty then
    let row := feature_columns.map (fun c => (input_data.lookup c).getD 0)
    let scaled := (scalerTransform scaler [row]).headD []
    .ok (predict_proba_one scaled).2
  else
    .error missing

/-- C10: whenever the input row lacks at least one persisted feature
column, the Predictor fails with the missing-feature error naming exactly
the absent persisted columns, and produces no probability — no default is
substituted for the missing column. -/
theorem C10_missing_feature_rejected (fc : List String)
    (input : List (String × ℚ)) (s : ScalerS) (pp : List ℚ → ℚ × ℚ)
    (h : fc.filter (fun c => ¬ (input.map Prod.fst).contains c) ≠ []) :
    predict_churn fc input s pp =
      .error (fc.filter (fun c => ¬ (input.map Prod.fst).contains c)) ∧
    ∀ q : ℚ, predict_churn fc input s pp ≠ .ok q := by
  have hE : (fc.filter (fun c => ¬ (input.map Prod.fst).contains c)).isEmpty
      = false := by
    cases hL : fc.filter (fun c => ¬ (input.map Prod.fst).contains c) with
    | nil => exact absurd hL h
    | cons a as => rfl
  constructor
  · simp only [predict_churn]
    rw [hE]
    rfl
  · intro q
    simp only [predict_churn]
    rw [hE]
    simp

theorem C10_missing_feature_rejected_witness :
    predict_churn ["recency", "num_orders"] [("recency", 30)] ⟨[0, 0], [1, 1]⟩
        (fun _ => (1/2, 1/2)) =
      .error ["num_orders"] ∧
    ∀ q : ℚ, predict_churn ["recency", "num_orders"] [("recency", 30)]
        ⟨[0, 0], [1, 1]⟩ (fun _ => (1/2, 1/2)) ≠ .ok q :=
  C10_missing_feature_rejected ["recency", "num_orders"] [("recency", 30)]
    ⟨[0, 0], [1, 1]⟩ (fun _ => (1/2, 1/2)) (by decide)
